import Mathlib

/-!
Verification development for the puzzle-js composition gateway core.

The TypeScript sources are shallowly embedded:
* JavaScript objects used as string maps (query strings, cookies, partial
  maps, version tables) become association lists in key insertion order,
  with JavaScript assignment / spread / delete semantics.
* `GatewayStorefrontInstance` (gateway.ts) becomes a pure state-transition
  function on an optional stored catalog snapshot, returning the emitted
  events; its timers become an explicit timer-world state.
* `FragmentStorefront.getContent` / `getPlaceholder` (fragment.ts) become
  pure functions parameterised by the outcome of the external network fetch.
* `FragmentBFF.render` / `placeholder`, `GatewayBFF.renderFragment` and the
  per-fragment route handler (gateway.ts), and the `Api` version-selection
  middleware (api.ts) become `Except`-valued functions, `Except.error`
  standing for a thrown error / rejected promise.
-/

/-! ### JavaScript object model -/

/-- A JavaScript object with string values: an association list in key
insertion order.  Real JS objects bind each key once; the operations below
implement JS assignment, spread and delete on this representation. -/
abbrev JSObj := List (String × String)

/-- First-binding lookup, `o[k]` (`undefined` becomes `none`). -/
def jsGet (o : JSObj) (k : String) : Option String :=
  (o.find? (fun p => p.1 == k)).map (fun p => p.2)

/-- JS property assignment `o[k] = v`: overwrite an existing binding in
place, otherwise append the new binding at the end. -/
def setKey (o : JSObj) (k v : String) : JSObj :=
  if o.any (fun p => p.1 == k) then
    o.map (fun p => if p.1 == k then (k, v) else p)
  else o ++ [(k, v)]

/-- JS `delete o[k]`. -/
def deleteKey (o : JSObj) (k : String) : JSObj :=
  o.filter (fun p => p.1 != k)

/-- JS object spread `{...a, ...b}`: assign every binding of `b` over `a`,
later bindings winning. -/
def spreadObj (a b : JSObj) : JSObj :=
  b.foldl (fun acc p => setKey acc p.1 p.2) a

/-- Last-binding lookup: the value a JS object built from `o` would hold at
`k` (later duplicate bindings win). -/
def lastVal (o : JSObj) (k : String) : Option String :=
  jsGet o.reverse k

/-- Option fallback: the value of `a.or b` in JavaScript terms
`a !== undefined ? a : b`. -/
def optOr (a b : Option String) : Option String :=
  match a with
  | some v => some v
  | none => b

theorem optOr_none (b : Option String) : optOr none b = b := rfl

theorem optOr_some (v : String) (b : Option String) : optOr (some v) b = some v := rfl

theorem jsGet_nil (k : String) : jsGet ([] : JSObj) k = none := rfl

theorem jsGet_cons (p : String × String) (t : JSObj) (k : String) :
    jsGet (p :: t) k = if p.1 = k then some p.2 else jsGet t k := by
  by_cases h : p.1 = k
  · simp [jsGet, List.find?_cons, h]
  · simp [jsGet, List.find?_cons, h]

theorem jsGet_append (a b : JSObj) (k : String) :
    jsGet (a ++ b) k = optOr (jsGet a k) (jsGet b k) := by
  induction a with
  | nil => simp [jsGet_nil, optOr_none]
  | cons p t ih =>
    rw [List.cons_append, jsGet_cons, jsGet_cons]
    by_cases h : p.1 = k
    · simp [h, optOr_some]
    · simp [h, ih]

theorem jsGet_eq_none_of_any_eq_false (o : JSObj) (k : String)
    (h : o.any (fun p => p.1 == k) = false) :
    jsGet o k = none := by
  induction o with
  | nil => rfl
  | cons p t ih =>
    simp only [List.any_cons, Bool.or_eq_false_iff, beq_eq_false_iff_ne, ne_eq] at h
    rw [jsGet_cons, if_neg h.1]
    exact ih (by simpa using h.2)

theorem jsGet_map_update_of_any (o : JSObj) (k v : String)
    (h : o.any (fun p => p.1 == k) = true) :
    jsGet (o.map (fun p => if p.1 == k then (k, v) else p)) k = some v := by
  induction o with
  | nil => simp at h
  | cons p t ih =>
    simp only [List.any_cons, Bool.or_eq_true, beq_iff_eq] at h
    rw [List.map_cons]
    by_cases hp : p.1 = k
    · simp [hp, jsGet_cons]
    · have hb : (p.1 == k) = false := beq_eq_false_iff_ne.mpr hp
      rw [hb]
      simp only [Bool.false_eq_true, if_false]
      rw [jsGet_cons, if_neg hp]
      exact ih (by rcases h with h | h; exact absurd h hp; simpa using h)

theorem jsGet_map_update_ne (o : JSObj) (k v k2 : String) (h : k2 ≠ k) :
    jsGet (o.map (fun p => if p.1 == k then (k, v) else p)) k2 = jsGet o k2 := by
  induction o with
  | nil => rfl
  | cons p t ih =>
    rw [List.map_cons]
    by_cases hp : p.1 = k
    · have hb : (p.1 == k) = true := beq_iff_eq.mpr hp
      rw [hb]
      simp only [if_true]
      rw [jsGet_cons, jsGet_cons, if_neg (fun e => h e.symm), if_neg (fun e => h (hp ▸ e).symm)]
      exact ih
    · have hb : (p.1 == k) = false := beq_eq_false_iff_ne.mpr hp
      rw [hb]
      simp only [Bool.false_eq_true, if_false]
      rw [jsGet_cons, jsGet_cons]
      by_cases hpk : p.1 = k2
      · rw [if_pos hpk, if_pos hpk]
      · rw [if_neg hpk, if_neg hpk]
        exact ih

theorem jsGet_setKey_self (o : JSObj) (k v : String) :
    jsGet (setKey o k v) k = some v := by
  unfold setKey
  by_cases h : o.any (fun p => p.1 == k) = true
  · rw [if_pos h]
    exact jsGet_map_update_of_any o k v h
  · rw [if_neg h]
    rw [jsGet_append, jsGet_eq_none_of_any_eq_false o k (Bool.eq_false_iff.mpr h ▸ rfl)]
    simp [optOr_none, jsGet_cons]

theorem jsGet_setKey_ne (o : JSObj) (k v k2 : String) (h : k2 ≠ k) :
    jsGet (setKey o k v) k2 = jsGet o k2 := by
  unfold setKey
  by_cases ha : o.any (fun p => p.1 == k) = true
  · rw [if_pos ha]
    exact jsGet_map_update_ne o k v k2 h
  · rw [if_neg ha, jsGet_append]
    have : jsGet [(k, v)] k2 = none := by
      rw [jsGet_cons, if_neg (fun e => h e.symm)]; rfl
    rw [this]
    cases hg : jsGet o k2 <;> simp [optOr]

theorem jsGet_deleteKey (o : JSObj) (k k2 : String) :
    jsGet (deleteKey o k) k2 = if k2 = k then none else jsGet o k2 := by
  induction o with
  | nil => simp [deleteKey, jsGet_nil]
  | cons p t ih =>
    have hd : deleteKey (p :: t) k =
        if (p.1 != k) = true then p :: deleteKey t k else deleteKey t k := by
      simp [deleteKey, List.filter_cons]
    by_cases hp : p.1 = k
    · have hb : (p.1 != k) = false := by simp [hp]
      rw [hd, hb]
      simp only [Bool.false_eq_true, if_false]
      rw [ih]
      by_cases hk : k2 = k
      · simp [hk]
      · rw [if_neg hk, if_neg hk, jsGet_cons, if_neg (fun e => hk (e.symm.trans hp))]
    · have hb : (p.1 != k) = true := by simp [hp]
      rw [hd, hb]
      simp only [if_true]
      rw [jsGet_cons, jsGet_cons, ih]
      by_cases hpk : p.1 = k2
      · have hk : ¬ k2 = k := fun e => hp (hpk.trans e)
        rw [if_pos hpk, if_neg hk, if_pos hpk]
      · rw [if_neg hpk, if_neg hpk]

theorem lastVal_nil (k : String) : lastVal [] k = none := rfl

theorem lastVal_cons (p : String × String) (t : JSObj) (k : String) :
    lastVal (p :: t) k = optOr (lastVal t k) (if p.1 = k then some p.2 else none) := by
  unfold lastVal
  rw [List.reverse_cons, jsGet_append, jsGet_cons]
  by_cases h : p.1 = k <;> simp [h, jsGet_nil]

theorem jsGet_spreadObj (a b : JSObj) (k : String) :
    jsGet (spreadObj a b) k = optOr (lastVal b k) (jsGet a k) := by
  induction b generalizing a with
  | nil => simp [spreadObj, lastVal_nil, optOr_none]
  | cons p t ih =>
    have hs : spreadObj a (p :: t) = spreadObj (setKey a p.1 p.2) t := rfl
    rw [hs, ih, lastVal_cons]
    by_cases hp : p.1 = k
    · rw [if_pos hp, hp, jsGet_setKey_self]
      cases lastVal t k <;> simp [optOr]
    · rw [if_neg hp, jsGet_setKey_ne a p.1 p.2 k (fun e => hp e.symm)]
      cases lastVal t k <;> simp [optOr]

/-! ### Data model (types/fragment.ts, types/gateway.ts) -/

/-- Entry of a fragment's asset list (resourceFactory.ts). -/
structure IFileResourceAsset where
  name : String
  fileName : String
  deriving DecidableEq

/-- Entry of a fragment's dependency list (resourceFactory.ts). -/
structure IFileResourceDependency where
  name : String
  deriving DecidableEq

/-- Render metadata of a fragment (`IFragmentBFFRender`, fragment.ts).
Optional JS fields become `Option`; a missing boolean field is falsy. -/
structure IFragmentBFFRender where
  static : Option Bool
  url : String
  routeCache : Option Nat
  selfReplace : Option Bool
  cacheControl : Option String
  placeholder : Option Bool
  timeout : Option Nat
  deriving DecidableEq

/-- Exposed fragment descriptor (`IExposeFragment`, gateway.ts): one entry
of a gateway catalog. -/
structure IExposeFragment where
  version : String
  render : IFragmentBFFRender
  assets : List IFileResourceAsset
  dependencies : List IFileResourceDependency
  testCookie : String
  deriving DecidableEq

/-- Gateway catalog payload (`IExposeConfig`, gateway.ts): the fragment
descriptors keyed by name, plus the remote-computed content hash. -/
structure IExposeConfig where
  fragments : List (String × IExposeFragment)
  hash : String
  deriving DecidableEq

/-! ### Gateway discovery client (gateway.ts, GatewayStorefrontInstance) -/

/-- Events the storefront-side gateway instance emits (`EVENTS`). -/
inductive GatewayEvent
  | GATEWAY_READY
  | GATEWAY_UPDATED
  deriving DecidableEq

/-- The body of `GatewayStorefrontInstance.update`: given the currently
stored catalog snapshot (`this.config`, `none` before the first successful
poll) and the freshly fetched payload, return the new stored snapshot and
the list of events emitted during the call. -/
def GatewayStorefrontInstance.update (config : Option IExposeConfig)
    (data : IExposeConfig) : Option IExposeConfig × List GatewayEvent :=
  match config with
  | none => (some data, [GatewayEvent.GATEWAY_READY])
  | some current =>
    if data.hash ≠ current.hash then (some data, [GatewayEvent.GATEWAY_UPDATED])
    else (some current, [])

/-- A concrete render-metadata record used by the concrete catalogs below
(values as in the repository's storefront test fixtures). -/
def productRender : IFragmentBFFRender :=
  { static := none, url := "/", routeCache := none, selfReplace := none,
    cacheControl := none, placeholder := none, timeout := none }

/-- A concrete fragment descriptor (the `product` fragment of the
storefront test fixtures). -/
def productDescriptor : IExposeFragment :=
  { version := "1.0.0", render := productRender, assets := [],
    dependencies := [], testCookie := "sdasd" }

/-- Concrete catalog payload with hash `"a"` and no fragments. -/
def cfgA : IExposeConfig := { fragments := [], hash := "a" }

/-- Concrete catalog payload with hash `"b"` and no fragments. -/
def cfgB : IExposeConfig := { fragments := [], hash := "b" }

/-- Concrete catalog payload with hash `"h1"` and no fragments. -/
def cfgSameHashEmpty : IExposeConfig := { fragments := [], hash := "h1" }

/-- Concrete catalog payload with hash `"h1"` and one fragment: same hash
field as `cfgSameHashEmpty` but different content. -/
def cfgSameHashProduct : IExposeConfig :=
  { fragments := [("product", productDescriptor)], hash := "h1" }

/-- C1: a successful catalog poll stores the fetched catalog and emits
exactly one `GATEWAY_READY` event when no snapshot was stored; replaces
the snapshot and emits exactly one `GATEWAY_UPDATED` event when the
fetched hash differs from the stored one; and keeps the stored snapshot
identity-equal, emitting nothing, when the hash is unchanged. -/
theorem update_poll_spec (config : Option IExposeConfig) (data : IExposeConfig) :
    (config = none →
      GatewayStorefrontInstance.update config data
        = (some data, [GatewayEvent.GATEWAY_READY])) ∧
    (∀ current, config = some current → data.hash ≠ current.hash →
      GatewayStorefrontInstance.update config data
        = (some data, [GatewayEvent.GATEWAY_UPDATED])) ∧
    (∀ current, config = some current → data.hash = current.hash →
      GatewayStorefrontInstance.update config data = (some current, [])) := by
  refine ⟨fun h => ?_, fun current h hne => ?_, fun current h he => ?_⟩ <;>
    subst h <;> simp [GatewayStorefrontInstance.update, *]

/-- C1 witness: the three poll outcomes at concrete catalogs. -/
theorem update_poll_spec_witness :
    GatewayStorefrontInstance.update none cfgA
      = (some cfgA, [GatewayEvent.GATEWAY_READY]) ∧
    GatewayStorefrontInstance.update (some cfgA) cfgB
      = (some cfgB, [GatewayEvent.GATEWAY_UPDATED]) ∧
    GatewayStorefrontInstance.update (some cfgA) cfgA = (some cfgA, []) :=
  ⟨(update_poll_spec none cfgA).1 rfl,
   (update_poll_spec (some cfgA) cfgB).2.1 cfgA rfl (by decide),
   (update_poll_spec (some cfgA) cfgA).2.2 cfgA rfl rfl⟩

/-- C6 counterexample: the discovery client does not hash the catalog
itself.  Two payloads whose fragment lists differ but whose remote-supplied
`hash` fields agree are treated as unchanged: the snapshot is kept and no
event fires, so a content change is not detected as a hash difference. -/
theorem update_misses_content_change_with_same_hash :
    cfgSameHashEmpty.fragments ≠ cfgSameHashProduct.fragments ∧
    GatewayStorefrontInstance.update (some cfgSameHashEmpty) cfgSameHashProduct
      = (some cfgSameHashEmpty, []) := by
  refine ⟨by decide, rfl⟩

/-- C6 amended: the comparison hash is computed remotely (GatewayBFF sets
`exposedConfig.hash` once at construction) and carried in the payload; the
discovery client itself computes no hash.  It detects a change exactly when
the remote-supplied `hash` field differs from the stored one, and its
decision depends only on the `hash` fields, not on the catalog content. -/
theorem update_compares_only_remote_hash (c d d2 : IExposeConfig)
    (hh : d.hash = d2.hash) :
    ((GatewayStorefrontInstance.update (some c) d).2 ≠ [] ↔ d.hash ≠ c.hash) ∧
    (GatewayStorefrontInstance.update (some c) d).2
      = (GatewayStorefrontInstance.update (some c) d2).2 := by
  constructor
  · by_cases he : d.hash = c.hash <;> simp [GatewayStorefrontInstance.update, he]
  · by_cases he : d.hash = c.hash <;>
      simp [GatewayStorefrontInstance.update, he, hh ▸ he, ← hh]

/-- C6 amended witness: with equal hash fields but different fragment
lists, both payloads lead to the same (empty) event list. -/
theorem update_compares_only_remote_hash_witness :
    ((GatewayStorefrontInstance.update (some cfgSameHashEmpty) cfgSameHashProduct).2 ≠ []
      ↔ cfgSameHashProduct.hash ≠ cfgSameHashEmpty.hash) ∧
    (GatewayStorefrontInstance.update (some cfgSameHashEmpty) cfgSameHashProduct).2
      = (GatewayStorefrontInstance.update (some cfgSameHashEmpty) cfgSameHashEmpty).2 :=
  update_compares_only_remote_hash cfgSameHashEmpty cfgSameHashProduct cfgSameHashEmpty rfl

/-! ### Fragment content client (fragment.ts, FragmentStorefront) -/

/-- Render modes (`FRAGMENT_RENDER_MODES`, enums.ts). -/
inductive FRAGMENT_RENDER_MODES
  | stream
  | preview
  deriving DecidableEq

/-- Modelled from the spec: enums.ts is not under src/; §6 fixes the
render-mode query values as `stream` and `preview`. -/
def FRAGMENT_RENDER_MODES.toValue : FRAGMENT_RENDER_MODES → String
  | FRAGMENT_RENDER_MODES.stream => "stream"
  | FRAGMENT_RENDER_MODES.preview => "preview"

/-- Modelled from the spec: config.ts is not under src/; §6 fixes the
render-mode query parameter name as `__renderMode` (fragment.ts also
writes this key literally into the forwarded query object). -/
def RENDER_MODE_QUERY_NAME : String := "__renderMode"

/-- The result of `url.parse(req.url, true)` on the caller's request: the
path and the parsed query object. -/
structure ParsedRequest where
  pathname : String
  query : JSObj
  deriving DecidableEq

/-- Outcome of the external `node-fetch` call for fragment content: a
response with a status and a JSON body (`none` when `res.json()` rejects),
or a rejection by timeout or transport error. -/
inductive FetchOutcome
  | response (status : Nat) (jsonBody : Option JSObj)
  | timeoutFailure
  | transportFailure
  deriving DecidableEq

/-- Fragment content response (`IFragmentContentResponse`, page.ts):
status plus the partial-name-to-HTML map. -/
structure IFragmentContentResponse where
  status : Nat
  html : JSObj
  deriving DecidableEq

/-- The query object `FragmentStorefront.getContent` forwards to the remote
fragment: `{...attribs, __renderMode: STREAM}`, then the caller's parsed
query spread over it when a request is attached, then `delete` of the
`from`, `name`, `partial`, `primary` and `shouldwait` keys. -/
def FragmentStorefront.forwardedQuery (attribs : JSObj)
    (req : Option ParsedRequest) : JSObj :=
  let query := setKey attribs RENDER_MODE_QUERY_NAME
    FRAGMENT_RENDER_MODES.stream.toValue
  let query :=
    match req with
    | some parsedRequest => spreadObj query parsedRequest.query
    | none => query
  let query := deleteKey query "from"
  let query := deleteKey query "name"
  let query := deleteKey query "partial"
  let query := deleteKey query "primary"
  let query := deleteKey query "shouldwait"
  query

/-- The body of `FragmentStorefront.getContent`: without a stored fragment
config it resolves to `{status: 500, html: {}}` and issues no fetch;
otherwise it issues the fetch (second component: the forwarded query) and
maps the outcome, every rejection being caught into `{status: 500,
html: {}}`. -/
def FragmentStorefront.getContentCore (config : Option IExposeFragment)
    (attribs : JSObj) (req : Option ParsedRequest) (outcome : FetchOutcome) :
    IFragmentContentResponse × Option JSObj :=
  match config with
  | none => ({ status := 500, html := [] }, none)
  | some _ =>
    let q := FragmentStorefront.forwardedQuery attribs req
    match outcome with
    | FetchOutcome.response st (some body) => ({ status := st, html := body }, some q)
    | FetchOutcome.response _ none => ({ status := 500, html := [] }, some q)
    | FetchOutcome.timeoutFailure => ({ status := 500, html := [] }, some q)
    | FetchOutcome.transportFailure => ({ status := 500, html := [] }, some q)

/-- The value `FragmentStorefront.getContent` resolves to. -/
def FragmentStorefront.getContent (config : Option IExposeFragment)
    (attribs : JSObj) (req : Option ParsedRequest) (outcome : FetchOutcome) :
    IFragmentContentResponse :=
  (FragmentStorefront.getContentCore config attribs req outcome).1

/-- C2: `FragmentStorefront.getContent` resolves — never rejects — to the
distinguished `{status: 500, html: {}}` result whenever no fragment config
is stored, the fetch times out, or the transport fails, so callers treat
all such failures uniformly. -/
theorem getContent_failure_uniform (config : Option IExposeFragment)
    (attribs : JSObj) (req : Option ParsedRequest) (outcome : FetchOutcome)
    (h : config = none ∨ outcome = FetchOutcome.timeoutFailure ∨
      outcome = FetchOutcome.transportFailure) :
    FragmentStorefront.getContent config attribs req outcome
      = { status := 500, html := [] } := by
  rcases h with h | h | h
  · subst h; rfl
  · subst h; cases config <;> rfl
  · subst h; cases config <;> rfl

/-- C2 witness: missing config, and a timeout with a config present, both
resolve to status 500 with an empty partial map. -/
theorem getContent_failure_uniform_witness :
    FragmentStorefront.getContent none [] none FetchOutcome.transportFailure
      = { status := 500, html := [] } ∧
    FragmentStorefront.getContent (some productDescriptor) [] none
      FetchOutcome.timeoutFailure = { status := 500, html := [] } :=
  ⟨getContent_failure_uniform none [] none FetchOutcome.transportFailure (Or.inl rfl),
   getContent_failure_uniform (some productDescriptor) [] none
     FetchOutcome.timeoutFailure (Or.inr (Or.inl rfl))⟩

/-- C5 counterexample: with a caller request attached, the forwarded query
still contains the render-mode selector — `getContent` sets
`__renderMode=stream` itself and never deletes that key (the repository's
own storefront test expects the gateway to receive exactly this
parameter).  The claim that the forwarded query contains no render-mode
selector fails at this concrete input. -/
theorem forwardedQuery_contains_render_mode_selector :
    jsGet (FragmentStorefront.forwardedQuery
        [("from", "Browsing"), ("name", "product")]
        (some { pathname := "/product/", query := [("foo", "1")] }))
      RENDER_MODE_QUERY_NAME = some "stream" ∧
    FragmentStorefront.forwardedQuery
        [("from", "Browsing"), ("name", "product")]
        (some { pathname := "/product/", query := [("foo", "1")] })
      = [("__renderMode", "stream"), ("foo", "1")] := by
  constructor
  · rfl
  · rfl

/-- C5 amended: the forwarded query contains none of the fragment identity
parameters (`from`, `name`, `partial`) nor the `primary`/`shouldwait`
flags; the render-mode selector is always present, set to `stream` unless
the caller's query supplies its own value (which wins); every other key of
the caller's query (and of the fragment attributes it does not shadow) is
forwarded unchanged. -/
theorem forwardedQuery_amended (attribs : JSObj) (r : ParsedRequest) :
    jsGet (FragmentStorefront.forwardedQuery attribs (some r)) "from" = none ∧
    jsGet (FragmentStorefront.forwardedQuery attribs (some r)) "name" = none ∧
    jsGet (FragmentStorefront.forwardedQuery attribs (some r)) "partial" = none ∧
    jsGet (FragmentStorefront.forwardedQuery attribs (some r)) "primary" = none ∧
    jsGet (FragmentStorefront.forwardedQuery attribs (some r)) "shouldwait" = none ∧
    jsGet (FragmentStorefront.forwardedQuery attribs (some r)) RENDER_MODE_QUERY_NAME
      = some ((lastVal r.query RENDER_MODE_QUERY_NAME).getD "stream") ∧
    (∀ k, k ≠ "from" → k ≠ "name" → k ≠ "partial" → k ≠ "primary" →
      k ≠ "shouldwait" → k ≠ RENDER_MODE_QUERY_NAME →
      jsGet (FragmentStorefront.forwardedQuery attribs (some r)) k
        = optOr (lastVal r.query k) (jsGet attribs k)) := by
  have hq : FragmentStorefront.forwardedQuery attribs (some r)
      = deleteKey (deleteKey (deleteKey (deleteKey (deleteKey
          (spreadObj (setKey attribs RENDER_MODE_QUERY_NAME "stream") r.query)
          "from") "name") "partial") "primary") "shouldwait" := rfl
  refine ⟨?_, ?_, ?_, ?_, ?_, ?_, ?_⟩
  · rw [hq]; simp [jsGet_deleteKey]
  · rw [hq]; simp [jsGet_deleteKey]
  · rw [hq]; simp [jsGet_deleteKey]
  · rw [hq]; simp [jsGet_deleteKey]
  · rw [hq]; simp [jsGet_deleteKey]
  · rw [hq]
    simp only [jsGet_deleteKey, RENDER_MODE_QUERY_NAME]
    norm_num
    rw [jsGet_spreadObj, jsGet_setKey_self]
    cases lastVal r.query "__renderMode" <;> simp [optOr]
  · intro k h1 h2 h3 h4 h5 h6
    rw [hq]
    simp only [jsGet_deleteKey, if_neg h5, if_neg h4, if_neg h3, if_neg h2, if_neg h1]
    rw [jsGet_spreadObj, jsGet_setKey_ne attribs RENDER_MODE_QUERY_NAME "stream" k h6]

/-- C5 amended witness: at a concrete caller query, identity and flag
parameters are stripped, the selector is present, and the rest survives. -/
theorem forwardedQuery_amended_witness :
    jsGet (FragmentStorefront.forwardedQuery [("from", "Browsing")]
        (some { pathname := "/product/", query := [("foo", "1")] })) "from" = none ∧
    jsGet (FragmentStorefront.forwardedQuery [("from", "Browsing")]
        (some { pathname := "/product/", query := [("foo", "1")] }))
      RENDER_MODE_QUERY_NAME
      = some ((lastVal [("foo", "1")] RENDER_MODE_QUERY_NAME).getD "stream") ∧
    jsGet (FragmentStorefront.forwardedQuery [("from", "Browsing")]
        (some { pathname := "/product/", query := [("foo", "1")] })) "foo"
      = optOr (lastVal [("foo", "1")] "foo") (jsGet [("from", "Browsing")] "foo") :=
  ⟨(forwardedQuery_amended [("from", "Browsing")]
      { pathname := "/product/", query := [("foo", "1")] }).1,
   (forwardedQuery_amended [("from", "Browsing")]
      { pathname := "/product/", query := [("foo", "1")] }).2.2.2.2.2.1,
   (forwardedQuery_amended [("from", "Browsing")]
      { pathname := "/product/", query := [("foo", "1")] }).2.2.2.2.2.2 "foo"
     (by decide) (by decide) (by decide) (by decide) (by decide) (by decide)⟩

/-- Outcome of the external placeholder fetch: the response text, or a
rejection. -/
inductive PlaceholderFetch
  | text (html : String)
  | failure
  deriving DecidableEq

/-- The body of `FragmentStorefront.getPlaceholder`: resolves to the empty
string without fetching when no config is stored or the descriptor does not
declare placeholder support; otherwise fetches (second component `true`)
and resolves to the response text, or to the empty string if the fetch
rejects. -/
def FragmentStorefront.getPlaceholder (config : Option IExposeFragment)
    (fetchOutcome : PlaceholderFetch) : String × Bool :=
  match config with
  | none => ("", false)
  | some cfg =>
    if cfg.render.placeholder = some true then
      match fetchOutcome with
      | PlaceholderFetch.text html => (html, true)
      | PlaceholderFetch.failure => ("", true)
    else ("", false)

/-- C7: `getPlaceholder` returns the empty string without any network
request when no descriptor is stored or placeholder support is not
declared; a network fetch happens exactly when a descriptor is stored and
declares placeholder support. -/
theorem getPlaceholder_spec (config : Option IExposeFragment)
    (f : PlaceholderFetch) :
    (config = none → FragmentStorefront.getPlaceholder config f = ("", false)) ∧
    (∀ cfg, config = some cfg → cfg.render.placeholder ≠ some true →
      FragmentStorefront.getPlaceholder config f = ("", false)) ∧
    ((FragmentStorefront.getPlaceholder config f).2 = true ↔
      ∃ cfg, config = some cfg ∧ cfg.render.placeholder = some true) := by
  refine ⟨fun h => by subst h; rfl, fun cfg h hne => ?_, ?_⟩
  · subst h
    simp [FragmentStorefront.getPlaceholder, hne]
  · match config with
    | none => simp [FragmentStorefront.getPlaceholder]
    | some cfg =>
      by_cases hp : cfg.render.placeholder = some true
      · cases f <;> simp [FragmentStorefront.getPlaceholder, hp]
      · simp [FragmentStorefront.getPlaceholder, hp]

/-- C7 witness: no config, and a config without declared placeholder
support, both yield the empty string with no fetch. -/
theorem getPlaceholder_spec_witness :
    FragmentStorefront.getPlaceholder none PlaceholderFetch.failure = ("", false) ∧
    FragmentStorefront.getPlaceholder (some productDescriptor)
      PlaceholderFetch.failure = ("", false) :=
  ⟨(getPlaceholder_spec none PlaceholderFetch.failure).1 rfl,
   (getPlaceholder_spec (some productDescriptor) PlaceholderFetch.failure).2.1
     productDescriptor rfl (by decide)⟩

/-! ### Fragment BFF service side (fragment.ts FragmentBFF, gateway.ts
GatewayBFF, api.ts Api) -/

/-- Generic association lookup, JS bracket access on an object with
non-string values. -/
def assocGet {α : Type} (o : List (String × α)) (k : String) : Option α :=
  (o.find? (fun p => p.1 == k)).map (fun p => p.2)

/-- JavaScript `a || b` for an optional string: `undefined` and the empty
string are falsy. -/
def jsOrString (a : Option String) (b : String) : String :=
  match a with
  | some s => if s = "" then b else s
  | none => b

/-- A version handler module (`IFragmentHandler`, fragment.ts).  Its
functions are modelled by their results: the partial map `content`
produces, whether a `data` stage exists, and the text `placeholder`
returns. -/
structure IFragmentHandler where
  content : JSObj
  hasDataHandler : Bool
  placeholderHtml : String
  deriving DecidableEq

/-- A gateway-side fragment (`FragmentBFF`, fragment.ts).  `handler` is the
map `prepareHandlers` builds: one entry per key of `config.versions`.
`renderStatic` is `config.render.static`. -/
structure FragmentBFF where
  name : String
  version : String
  testCookie : String
  renderStatic : Option Bool
  handler : List (String × IFragmentHandler)
  deriving DecidableEq

/-- The body of `FragmentBFF.render`: pick `version || config.version` as
the target, reject when no handler is prepared for it, run the static or
data-then-content path, rejecting when a non-static fragment has no data
handler. -/
def FragmentBFF.render (f : FragmentBFF) (version : Option String) :
    Except String JSObj :=
  let targetVersion := jsOrString version f.version
  match assocGet f.handler targetVersion with
  | some handler =>
    if f.renderStatic = some true then Except.ok handler.content
    else if handler.hasDataHandler then Except.ok handler.content
    else Except.error ("Failed to find data handler for fragment. Fragment: "
      ++ f.name ++ ", Version: " ++ targetVersion)
  | none => Except.error ("Failed to find fragment version. Fragment: "
      ++ f.name ++ ", Version: " ++ targetVersion)

/-- The body of `FragmentBFF.placeholder`: unlike `render`, an unknown or
falsy requested version falls back to the configured live version before
the handler lookup. -/
def FragmentBFF.placeholder (f : FragmentBFF) (version : Option String) :
    Except String String :=
  let fragmentVersion :=
    match version with
    | some v => if (v != "") && (assocGet f.handler v).isSome then v else f.version
    | none => f.version
  match assocGet f.handler fragmentVersion with
  | some handler => Except.ok handler.placeholderHtml
  | none => Except.error ("Failed to find fragment version. Fragment: "
      ++ f.name ++ ", Version: " ++ jsOrString version f.version)

/-- A gateway process (`GatewayBFF`, gateway.ts): its name, the mobile
flag of its configuration, and its registered fragments by name. -/
structure GatewayBFF where
  name : String
  isMobile : Bool
  fragments : List (String × FragmentBFF)
  deriving DecidableEq

/-- JSON.stringify of a string-valued object (quoting only; the embedded
strings are assumed escape-free). -/
def jsonStringifyObj (o : JSObj) : String :=
  "\x7b" ++ String.intercalate ","
    (o.map (fun p => "\"" ++ p.1 ++ "\":\"" ++ p.2 ++ "\"")) ++ "\x7d"

/-- Template-literal interpolation of a possibly-undefined value. -/
def jsTemplate (v : Option String) : String :=
  match v with
  | some s => s
  | none => "undefined"

/-- The body of `GatewayBFF.wrapFragmentContent`: the preview-mode HTML
shell around a fragment partial. -/
def GatewayBFF.wrapFragmentContent (g : GatewayBFF) (htmlContent : Option String)
    (fragmentName : String) : String :=
  "<html><head><title>" ++ g.name ++ " - " ++ fragmentName ++ "</title>"
    ++ (if g.isMobile then
        "<meta name=\"viewport\" content=\"width=device-width, initial-scale=1.0, maximum-scale=1.0, user-scalable=no\" />"
      else "")
    ++ "</head><body>" ++ jsTemplate htmlContent ++ "</body></html>"

/-- The body of `GatewayBFF.renderFragment`: reject for an unregistered
fragment name, propagate a rejected fragment render, otherwise serialize
the partial map (stream mode) or wrap the selected partial (preview
mode). -/
def GatewayBFF.renderFragment (g : GatewayBFF) (fragmentName : String)
    (renderMode : FRAGMENT_RENDER_MODES) (partialName : String)
    (cookieValue : Option String) : Except String String :=
  match assocGet g.fragments fragmentName with
  | some fragment =>
    match fragment.render cookieValue with
    | Except.error e => Except.error e
    | Except.ok fragmentContent =>
      match renderMode with
      | FRAGMENT_RENDER_MODES.stream => Except.ok (jsonStringifyObj fragmentContent)
      | FRAGMENT_RENDER_MODES.preview =>
        Except.ok (g.wrapFragmentContent (jsGet fragmentContent partialName) fragmentName)
  | none => Except.error ("Failed to find fragment: " ++ fragmentName)

/-- Modelled from the spec: config.ts is not under src/; §6 fixes the
partial-selection query parameter as a process-wide constant whose concrete
spelling it does not state.  No claim depends on this value. -/
def PREVIEW_PARTIAL_QUERY_NAME : String := "__partial"

/-- Modelled from the spec: enums.ts is not under src/; §3 and §6 fix the
default main partial identifier as `main`. -/
def DEFAULT_MAIN_PARTIAL_KEY : String := "main"

/-- Render-mode selection of the per-fragment route handler
(`addFragmentRoutes`): `stream` exactly when the query carries the stream
value, otherwise `preview`. -/
def GatewayBFF.routeRenderMode (reqQuery : JSObj) : FRAGMENT_RENDER_MODES :=
  if jsGet reqQuery RENDER_MODE_QUERY_NAME
      = some FRAGMENT_RENDER_MODES.stream.toValue
  then FRAGMENT_RENDER_MODES.stream
  else FRAGMENT_RENDER_MODES.preview

/-- Partial selection of the per-fragment route handler:
`req.query[PREVIEW_PARTIAL_QUERY_NAME] || DEFAULT_MAIN_PARTIAL`. -/
def GatewayBFF.routePartialName (reqQuery : JSObj) : String :=
  jsOrString (jsGet reqQuery PREVIEW_PARTIAL_QUERY_NAME) DEFAULT_MAIN_PARTIAL_KEY

/-- The per-fragment content route handler (`addFragmentRoutes`): `some
(status, body)` is the response it writes; `none` means the awaited
`renderFragment` promise rejected, so the handler writes no response at
all.  Both completed branches of the source write `res.status(200)`. -/
def GatewayBFF.fragmentRouteHandler (g : GatewayBFF) (fragmentConfigName : String)
    (fragmentTestCookie : String) (reqQuery reqCookies : JSObj) :
    Option (Nat × String) :=
  match g.renderFragment fragmentConfigName (GatewayBFF.routeRenderMode reqQuery)
      (GatewayBFF.routePartialName reqQuery) (jsGet reqCookies fragmentTestCookie) with
  | Except.ok gatewayContent => some (200, gatewayContent)
  | Except.error _ => none

/-- Whether an `Except` is a success. -/
def exceptIsOk {ε α : Type} : Except ε α → Bool
  | Except.ok _ => true
  | Except.error _ => false

/-- A versioned API (`Api`, api.ts): the fields its version-selection
middleware reads. -/
structure ApiModel where
  name : String
  testCookie : String
  liveVersion : String
  versions : List String
  deriving DecidableEq

/-- The version the `Api.registerEndpoints` middleware selects: the outer
array-literal test `[req.cookies[testCookie]] ? ... : liveVersion` is
always truthy, so the version is the cookie value when it names a known
version, else the configured live version. -/
def Api.requestVersion (api : ApiModel) (cookieValue : Option String) : String :=
  match cookieValue with
  | some c => if api.versions.contains c then c else api.liveVersion
  | none => api.liveVersion

/-- The path rewrite the middleware applies before routing:
`req.url = /{requestVersion}{req.url}`. -/
def Api.rewriteUrl (api : ApiModel) (cookieValue : Option String)
    (reqUrl : String) : String :=
  "/" ++ Api.requestVersion api cookieValue ++ reqUrl

/-- Handler of the `product` fragment's live version, as in the storefront
test fixtures: a data stage and a `main` partial. -/
def productHandler : IFragmentHandler :=
  { content := [("main", "Product Content")], hasDataHandler := true,
    placeholderHtml := "Product Placeholder" }

/-- Handler whose fragment declares no data stage: rendering it rejects
because the fragment is not static. -/
def brokenHandler : IFragmentHandler :=
  { content := [("main", "Broken")], hasDataHandler := false,
    placeholderHtml := "" }

/-- The `product` fragment with live version 1.0.0 and a working handler. -/
def fragProduct : FragmentBFF :=
  { name := "product", version := "1.0.0", testCookie := "sdasd",
    renderStatic := none, handler := [("1.0.0", productHandler)] }

/-- A `product` fragment whose only version has no data handler, so every
render of it rejects. -/
def fragBroken : FragmentBFF :=
  { name := "product", version := "1.0.0", testCookie := "sdasd",
    renderStatic := none, handler := [("1.0.0", brokenHandler)] }

/-- Gateway whose `product` fragment renders successfully. -/
def gwOk : GatewayBFF :=
  { name := "Browsing", isMobile := false, fragments := [("product", fragProduct)] }

/-- Gateway whose `product` fragment's render always rejects. -/
def gwFailing : GatewayBFF :=
  { name := "Browsing", isMobile := false, fragments := [("product", fragBroken)] }

/-- Gateway with no registered fragments. -/
def gwEmpty : GatewayBFF :=
  { name := "Browsing", isMobile := false, fragments := [] }

/-- The body the successful preview render of `gwOk`'s product fragment
produces. -/
def gwOkBody : String :=
  GatewayBFF.wrapFragmentContent gwOk (some "Product Content") "product"

/-- C3 counterexample: a failing fragment render does not yield a non-2xx
response status.  At this concrete input the fragment's render rejects,
and the content route handler writes no response at all (`none`) — in
particular no non-2xx status — instead of reflecting the failure in the
status code. -/
theorem content_route_failing_render_no_error_status :
    GatewayBFF.renderFragment gwFailing "product" FRAGMENT_RENDER_MODES.preview
      "main" none
      = Except.error
        "Failed to find data handler for fragment. Fragment: product, Version: 1.0.0" ∧
    GatewayBFF.fragmentRouteHandler gwFailing "product" "sdasd" [] [] = none := by
  exact ⟨rfl, rfl⟩

/-- C3 amended: every response the per-fragment content endpoint actually
writes has status 200, whatever the fragment render did; a failing
fragment render produces no response from the handler (the awaited promise
rejects) rather than a non-2xx status.  Successful renders do get a 2xx
status, as claimed. -/
theorem content_route_always_200 (g : GatewayBFF)
    (fragmentConfigName fragmentTestCookie : String) (reqQuery reqCookies : JSObj) :
    (∀ st body,
      GatewayBFF.fragmentRouteHandler g fragmentConfigName fragmentTestCookie
        reqQuery reqCookies = some (st, body) → st = 200) ∧
    (GatewayBFF.fragmentRouteHandler g fragmentConfigName fragmentTestCookie
        reqQuery reqCookies = none ↔
      exceptIsOk (GatewayBFF.renderFragment g fragmentConfigName
        (GatewayBFF.routeRenderMode reqQuery) (GatewayBFF.routePartialName reqQuery)
        (jsGet reqCookies fragmentTestCookie)) = false) := by
  unfold GatewayBFF.fragmentRouteHandler
  cases h : GatewayBFF.renderFragment g fragmentConfigName
      (GatewayBFF.routeRenderMode reqQuery) (GatewayBFF.routePartialName reqQuery)
      (jsGet reqCookies fragmentTestCookie) with
  | error e => simp [exceptIsOk]
  | ok v =>
    constructor
    · intro st body heq
      simp only [Option.some.injEq, Prod.mk.injEq] at heq
      exact heq.1.symm
    · simp [exceptIsOk]

/-- C3 amended witness: the successful render responds 200; the failing
render yields no response. -/
theorem content_route_always_200_witness :
    GatewayBFF.fragmentRouteHandler gwOk "product" "sdasd" [] []
      = some (200, gwOkBody) ∧
    (200 : Nat) = 200 ∧
    GatewayBFF.fragmentRouteHandler gwFailing "product" "sdasd" [] [] = none :=
  ⟨rfl,
   (content_route_always_200 gwOk "product" "sdasd" [] []).1 200 gwOkBody rfl,
   (content_route_always_200 gwFailing "product" "sdasd" [] []).2.mpr rfl⟩

/-- The API fixture: one known version, which is also the live one. -/
def apiBrowsing : ApiModel :=
  { name := "browsing", testCookie := "sdasd", liveVersion := "1.0.0",
    versions := ["1.0.0"] }

/-- C4: the claimed selection rule (cookie names a known version → pin it,
else fall back to the live version) holds for API requests
(`Api.registerEndpoints`) and even for `FragmentBFF.placeholder`, but not
for fragment content requests: `FragmentBFF.render` uses the cookie value
directly as the target version and rejects when it is unknown instead of
falling back to the live version's handler. -/
theorem test_cookie_fallback_inconsistent :
    Api.requestVersion apiBrowsing (some "2.0.0") = "1.0.0" ∧
    FragmentBFF.placeholder fragProduct (some "2.0.0")
      = Except.ok "Product Placeholder" ∧
    FragmentBFF.render fragProduct (some "2.0.0")
      = Except.error
        "Failed to find fragment version. Fragment: product, Version: 2.0.0" := by
  exact ⟨rfl, rfl, rfl⟩

/-- C9: `GatewayBFF.renderFragment` with an unregistered fragment name
rejects with the `Failed to find fragment` error; it never resolves with a
response body. -/
theorem renderFragment_unknown_rejects (g : GatewayBFF) (fragmentName : String)
    (renderMode : FRAGMENT_RENDER_MODES) (partialName : String)
    (cookieValue : Option String)
    (h : assocGet g.fragments fragmentName = none) :
    g.renderFragment fragmentName renderMode partialName cookieValue
      = Except.error ("Failed to find fragment: " ++ fragmentName) := by
  unfold GatewayBFF.renderFragment
  rw [h]

/-- C9 witness: on a gateway with no fragments, rendering `missing`
rejects with the expected error. -/
theorem renderFragment_unknown_rejects_witness :
    GatewayBFF.renderFragment gwEmpty "missing" FRAGMENT_RENDER_MODES.preview
      "main" none = Except.error ("Failed to find fragment: " ++ "missing") :=
  renderFragment_unknown_rejects gwEmpty "missing" FRAGMENT_RENDER_MODES.preview
    "main" none rfl

/-! ### Polling timers (gateway.ts, startUpdating / stopUpdating) -/

/-- The Node timer environment: the next fresh interval-timer id and the
ids of the interval timers currently scheduled (an interval timer keeps
firing until it is cleared). -/
structure TimerWorld where
  nextId : Nat
  active : List Nat
  deriving DecidableEq

/-- The timer-relevant state of a `GatewayStorefrontInstance`: its private
`intervalId` field (`null` until `startUpdating` first runs; `stopUpdating`
never resets it). -/
structure GSIState where
  intervalId : Option Nat
  deriving DecidableEq

/-- `setInterval`: allocate a fresh timer id and schedule it. -/
def setIntervalModel (w : TimerWorld) : Nat × TimerWorld :=
  (w.nextId, { nextId := w.nextId + 1, active := w.active ++ [w.nextId] })

/-- `clearInterval id`: cancel that timer; clearing an already-cleared or
never-scheduled id is a no-op. -/
def clearIntervalModel (w : TimerWorld) (id : Nat) : TimerWorld :=
  { w with active := w.active.filter (fun t => t != id) }

/-- The body of `GatewayStorefrontInstance.startUpdating`: schedule a new
polling interval and overwrite `this.intervalId` with its id. -/
def GatewayStorefrontInstance.startUpdating (_s : GSIState) (w : TimerWorld) :
    GSIState × TimerWorld :=
  let r := setIntervalModel w
  ({ intervalId := some r.1 }, r.2)

/-- The body of `GatewayStorefrontInstance.stopUpdating`: clear the timer
named by `this.intervalId` when one is set; `this.intervalId` itself is
left untouched. -/
def GatewayStorefrontInstance.stopUpdating (s : GSIState) (w : TimerWorld) :
    GSIState × TimerWorld :=
  match s.intervalId with
  | some id => (s, clearIntervalModel w id)
  | none => (s, w)

theorem filter_bne_idem (l : List Nat) (id : Nat) :
    (l.filter (fun t => t != id)).filter (fun t => t != id)
      = l.filter (fun t => t != id) := by
  rw [List.filter_filter]
  simp

/-- C8: `stopUpdating` cancels the scheduled polling timer and is
idempotent — calling it when polling was never started is a no-op, and
calling it again after a call leaves instance and timer world exactly as
the single call did. -/
theorem stopUpdating_idempotent (s : GSIState) (w : TimerWorld) :
    (s.intervalId = none → GatewayStorefrontInstance.stopUpdating s w = (s, w)) ∧
    (∀ id, s.intervalId = some id →
      (GatewayStorefrontInstance.stopUpdating s w).2.active
        = w.active.filter (fun t => t != id)) ∧
    (GatewayStorefrontInstance.stopUpdating
        (GatewayStorefrontInstance.stopUpdating s w).1
        (GatewayStorefrontInstance.stopUpdating s w).2
      = GatewayStorefrontInstance.stopUpdating s w) := by
  refine ⟨fun h => ?_, fun id h => ?_, ?_⟩
  · simp [GatewayStorefrontInstance.stopUpdating, h]
  · simp [GatewayStorefrontInstance.stopUpdating, h, clearIntervalModel]
  · cases h : s.intervalId with
    | none => simp [GatewayStorefrontInstance.stopUpdating, h]
    | some id =>
      simp only [GatewayStorefrontInstance.stopUpdating, h, clearIntervalModel]
      rw [filter_bne_idem]

/-- C8 witness: never-started and already-stopped cases at a concrete
instance. -/
theorem stopUpdating_idempotent_witness :
    GatewayStorefrontInstance.stopUpdating { intervalId := none }
      { nextId := 0, active := [] }
      = ({ intervalId := none }, { nextId := 0, active := [] }) ∧
    (GatewayStorefrontInstance.stopUpdating { intervalId := some 0 }
        { nextId := 1, active := [0] }).2.active
      = [0].filter (fun t => t != 0) ∧
    GatewayStorefrontInstance.stopUpdating
        (GatewayStorefrontInstance.stopUpdating { intervalId := some 0 }
          { nextId := 1, active := [0] }).1
        (GatewayStorefrontInstance.stopUpdating { intervalId := some 0 }
          { nextId := 1, active := [0] }).2
      = GatewayStorefrontInstance.stopUpdating { intervalId := some 0 }
          { nextId := 1, active := [0] } :=
  ⟨(stopUpdating_idempotent { intervalId := none } { nextId := 0, active := [] }).1 rfl,
   (stopUpdating_idempotent { intervalId := some 0 } { nextId := 1, active := [0] }).2.1 0 rfl,
   (stopUpdating_idempotent { intervalId := some 0 } { nextId := 1, active := [0] }).2.2⟩

/-- An externally driven call on the instance: `startUpdating` or
`stopUpdating`. -/
inductive GSIOp
  | start
  | stop
  deriving DecidableEq

/-- Apply one call to the instance and timer world. -/
def GSIOp.apply : GSIState × TimerWorld → GSIOp → GSIState × TimerWorld
  | (s, w), GSIOp.start => GatewayStorefrontInstance.startUpdating s w
  | (s, w), GSIOp.stop => GatewayStorefrontInstance.stopUpdating s w

/-- Apply a sequence of calls. -/
def runOps (init : GSIState × TimerWorld) (ops : List GSIOp) :
    GSIState × TimerWorld :=
  ops.foldl GSIOp.apply init

/-- A timer is leaked when it is scheduled but the instance no longer holds
its id: no later call can ever clear it. -/
def timerLeaked (id : Nat) (p : GSIState × TimerWorld) : Prop :=
  id ∈ p.2.active ∧ id < p.2.nextId ∧ p.1.intervalId ≠ some id

theorem timerLeaked_apply (id : Nat) (p : GSIState × TimerWorld) (op : GSIOp)
    (h : timerLeaked id p) : timerLeaked id (GSIOp.apply p op) := by
  obtain ⟨s, w⟩ := p
  obtain ⟨hm, hlt, hne⟩ := h
  dsimp only at hm hlt hne
  cases op with
  | start =>
    refine ⟨?_, ?_, ?_⟩
    · show id ∈ w.active ++ [w.nextId]
      exact List.mem_append.mpr (Or.inl hm)
    · show id < w.nextId + 1
      exact Nat.lt_succ_of_lt hlt
    · show (some w.nextId : Option Nat) ≠ some id
      intro hcon
      exact absurd (Option.some.inj hcon) (by omega)
  | stop =>
    cases hs : s.intervalId with
    | none =>
      have hred : GSIOp.apply (s, w) GSIOp.stop = (s, w) := by
        simp [GSIOp.apply, GatewayStorefrontInstance.stopUpdating, hs]
      rw [hred]
      exact ⟨hm, hlt, hne⟩
    | some j =>
      have hji : (id != j) = true := by
        simp only [bne_iff_ne, ne_eq]
        intro e
        exact hne (by rw [hs, e])
      simp only [GSIOp.apply, GatewayStorefrontInstance.stopUpdating, hs,
        clearIntervalModel, timerLeaked]
      exact ⟨List.mem_filter.mpr ⟨hm, hji⟩, hlt, hs ▸ hne⟩

theorem timerLeaked_runOps (id : Nat) (p : GSIState × TimerWorld)
    (ops : List GSIOp) (h : timerLeaked id p) : timerLeaked id (runOps p ops) := by
  induction ops generalizing p with
  | nil => exact h
  | cons op t ih => exact ih _ (timerLeaked_apply id p op h)

/-- C10: a second `startUpdating` without an intervening `stopUpdating`
overwrites the stored timer id, so the following `stopUpdating` cancels
only the most recently created polling timer, while the first timer stays
scheduled and no further sequence of `startUpdating`/`stopUpdating` calls
can ever cancel it. -/
theorem double_start_leaks_first_timer (s : GSIState) (w : TimerWorld)
    (ops : List GSIOp) :
    (runOps (s, w) [GSIOp.start, GSIOp.start]).1.intervalId
      = some (w.nextId + 1) ∧
    (w.nextId + 1) ∉
      (runOps (s, w) [GSIOp.start, GSIOp.start, GSIOp.stop]).2.active ∧
    w.nextId ∈
      (runOps (runOps (s, w) [GSIOp.start, GSIOp.start, GSIOp.stop]) ops).2.active := by
  have hp3 : runOps (s, w) [GSIOp.start, GSIOp.start, GSIOp.stop]
      = ({ intervalId := some (w.nextId + 1) },
         { nextId := w.nextId + 2,
           active := ((w.active ++ [w.nextId]) ++ [w.nextId + 1]).filter
             (fun t => t != w.nextId + 1) }) := rfl
  refine ⟨rfl, ?_, ?_⟩
  · rw [hp3]
    simp [List.mem_filter]
  · have hleak : timerLeaked w.nextId
        (runOps (s, w) [GSIOp.start, GSIOp.start, GSIOp.stop]) := by
      rw [hp3]
      refine ⟨?_, ?_, ?_⟩
      · show w.nextId ∈ _
        refine List.mem_filter.mpr ⟨?_, ?_⟩
        · exact List.mem_append.mpr (Or.inl (List.mem_append.mpr (Or.inr (by simp))))
        · simp
      · show w.nextId < w.nextId + 2
        omega
      · show (some (w.nextId + 1) : Option Nat) ≠ some w.nextId
        intro hcon
        exact absurd (Option.some.inj hcon) (by omega)
    exact (timerLeaked_runOps w.nextId _ ops hleak).1
